import Mathlib

/-!
Shallow embedding of the `udp_logger` Rust crate (src/lib.rs) and proofs of
its specification's claims.

The embedding models:
* `Level` — the `log::Level` enum, with discriminants matching the `log`
  crate (Error = 1 … Trace = 5) so that the derived ordering used by
  `UdpLogger::enabled` is `rank`-comparison;
* side effects of socket operations as an explicit `Event` trace
  (bind, send_to, eprintln), with the OS/network behaviour supplied by an
  `Env` record (resolution outcome, bind outcome) and a `send` oracle;
* the unbuffered `UdpWriter`, the buffered `UdpBufferedWriter` (queue plus
  the drain loop run by the background thread, modelled one wake cycle at a
  time), the `UdpLogger` facade and the `UdpLoggerBuilder` entry points.

Panics (from `.unwrap()` in the source) are modelled as a distinct
`InitResult.aborted` outcome, separate from returned errors.
-/

/-- The `log::Level` enum. -/
inductive Level where
  | Error
  | Warn
  | Info
  | Debug
  | Trace
deriving DecidableEq, Repr

/-- Discriminant of `log::Level` as declared in the `log` crate
(`Error = 1`, …, `Trace = 5`); the crate derives its ordering from it. -/
def Level.rank : Level → Nat
  | .Error => 1
  | .Warn => 2
  | .Info => 3
  | .Debug => 4
  | .Trace => 5

/-- The `Display` rendering of `log::Level` (upper-case name). -/
def Level.display : Level → String
  | .Error => "ERROR"
  | .Warn => "WARN"
  | .Info => "INFO"
  | .Debug => "DEBUG"
  | .Trace => "TRACE"

/-- A resolved socket address (`std::net::SocketAddr`). -/
structure SocketAddr where
  host : String
  port : Nat
deriving DecidableEq, Repr

/-- Observable side effects of the code: socket binds, datagram sends and
diagnostics written to stderr. -/
inductive Event where
  | bind (localAddr : String)
  | sendTo (payload : String) (dest : SocketAddr)
  | eprintln (msg : String)
deriving DecidableEq, Repr

/-- I/O errors that the modelled operations can produce. -/
inductive IoError where
  | resolveFail
  | addrNotAvailable
  | bindFail
deriving DecidableEq, Repr

/-- The environment supplied by the OS at initialization time: the outcome
of `destination.to_socket_addrs()`, whether `UdpSocket::bind` succeeds,
whether a global logger is already registered, and the clock's current
RFC3339 rendering. -/
structure Env where
  resolved : Except IoError (List SocketAddr)
  bindOk : Bool
  alreadyRegistered : Bool
  now : String

/-- A send oracle: the network's response to `UdpSocket::send_to`
(number of bytes sent, or an error rendered as a string). -/
def SendOracle : Type := String → SocketAddr → Except String Nat

/-- The `Writer` value owned by a `UdpLogger`: either the unbuffered
`UdpWriter` (holding the resolved destination; the bound socket is
abstracted into the event trace) or the buffered `UdpBufferedWriter`
(holding only the shared message queue — the destination and socket live
in the drain worker's closure). -/
inductive LogWriter where
  | unbuffered (destination : SocketAddr)
  | buffered (messages : List String)
deriving DecidableEq, Repr

/-- `UdpWriter::new`: resolve the destination, take the first resolved
address (`AddrNotAvailable` if none), then bind an ephemeral local socket. -/
def UdpWriter.new (env : Env) : List Event × Except IoError SocketAddr :=
  match env.resolved with
  | .error e => ([], .error e)
  | .ok addrs =>
    match addrs.head? with
    | none => ([], .error .addrNotAvailable)
    | some dest =>
      if env.bindOk then
        ([Event.bind "0.0.0.0:0"], .ok dest)
      else
        ([Event.bind "0.0.0.0:0"], .error .bindFail)

/-- `Writer::push`. The unbuffered variant sends the message as a datagram
on the calling thread and surfaces the send outcome; the buffered variant
appends to the tail of the shared queue and returns `Ok(())`, emitting no
network event on the calling thread. -/
def LogWriter.push (send : SendOracle) : LogWriter → String →
    List Event × LogWriter × Except String Unit
  | .unbuffered dest, message =>
    ([Event.sendTo message dest], .unbuffered dest,
      (send message dest).map fun _ => ())
  | .buffered q, message =>
    ([], .buffered (q ++ [message]), .ok ())

/-- One pass of the drain loop body in `UdpBufferedWriter::new`:
`while let Some(message) = messages.pop_front()` — send each popped
message, on failure print a diagnostic to stderr and continue. Returns the
emitted events and the queue left behind. -/
def drainAll (send : SendOracle) (dest : SocketAddr) :
    List String → List Event × List String
  | [] => ([], [])
  | m :: rest =>
    let errEvents :=
      match send m dest with
      | .ok _ => []
      | .error e => [Event.eprintln ("Error sending message: " ++ e)]
    let tail := drainAll send dest rest
    (Event.sendTo m dest :: errEvents ++ tail.1, tail.2)

/-- Events emitted by successive wake cycles of the drain worker, given the
queue contents it finds at each wake. No bind occurs here: the socket was
bound once in `UdpBufferedWriter::new` and moved into the worker closure. -/
def workerCycles (send : SendOracle) (dest : SocketAddr) :
    List (List String) → List Event
  | [] => []
  | q :: qs => (drainAll send dest q).1 ++ workerCycles send dest qs

/-- `UdpBufferedWriter::new`: resolve the destination, bind one ephemeral
socket, spawn the drain worker (which owns the socket and destination), and
return the (empty-queue) writer. The resolved destination is returned
alongside so that worker cycles can be modelled. -/
def UdpBufferedWriter.new (env : Env) :
    List Event × Except IoError (SocketAddr × List String) :=
  match env.resolved with
  | .error e => ([], .error e)
  | .ok addrs =>
    match addrs.head? with
    | none => ([], .error .addrNotAvailable)
    | some dest =>
      if env.bindOk then
        ([Event.bind "0.0.0.0:0"], .ok (dest, []))
      else
        ([Event.bind "0.0.0.0:0"], .error .bindFail)

/-- The `UdpLogger` struct: a writer and a minimum level. -/
structure UdpLogger where
  writer : LogWriter
  level : Level
deriving DecidableEq, Repr

/-- `UdpLogger::new`: an unbuffered logger with default level `Info`. -/
def UdpLogger.new (env : Env) : List Event × Except IoError UdpLogger :=
  match UdpWriter.new env with
  | (evs, .error e) => (evs, .error e)
  | (evs, .ok dest) => (evs, .ok ⟨LogWriter.unbuffered dest, Level.Info⟩)

/-- `UdpLogger::new_buffered`: a buffered logger with default level `Info`. -/
def UdpLogger.new_buffered (env : Env) : List Event × Except IoError UdpLogger :=
  match UdpBufferedWriter.new env with
  | (evs, .error e) => (evs, .error e)
  | (evs, .ok (_, q)) => (evs, .ok ⟨LogWriter.buffered q, Level.Info⟩)

/-- `UdpLogger::set_level`. -/
def UdpLogger.set_level (l : UdpLogger) (lvl : Level) : UdpLogger :=
  { l with level := lvl }

/-- `UdpLogger::enabled` (the `log::Log` impl):
`metadata.level() <= self.level` under the derived discriminant order. -/
def UdpLogger.enabled (l : UdpLogger) (eventLevel : Level) : Bool :=
  eventLevel.rank ≤ l.level.rank

/-- `UdpLogger::log`: if enabled, format the line
`LEVEL [rfc3339-now] message` followed by a newline and push it to the
writer (discarding the push result). Returns the list of lines handed to
`writer.push` (empty when filtered out), the emitted events and the new
logger state. -/
def UdpLogger.log (send : SendOracle) (env : Env) (l : UdpLogger)
    (eventLevel : Level) (message : String) :
    List String × List Event × UdpLogger :=
  if l.enabled eventLevel then
    let line := eventLevel.display ++ " [" ++ env.now ++ "] " ++ message ++ "\n"
    let r := LogWriter.push send l.writer line
    ([line], r.1, { l with writer := r.2.1 })
  else
    ([], [], l)

/-- Errors of the builder entry points: an I/O setup error or
`SetLoggerError` from `log::set_boxed_logger`. -/
inductive InitError where
  | io (e : IoError)
  | setLoggerErr
deriving DecidableEq, Repr

/-- Outcome of a builder entry point: success (with the logger installed as
the global sink), an error returned to the caller, or a panic (from an
`.unwrap()` in the source) — which is not a returned value. -/
inductive InitResult where
  | ok (installed : UdpLogger)
  | err (e : InitError)
  | aborted (e : IoError)
deriving DecidableEq, Repr

/-- `UdpLoggerBuilder::init`: `log::set_boxed_logger` fails iff a logger is
already registered; on success the given logger is installed. -/
def UdpLoggerBuilder.init (env : Env) (logger : UdpLogger) :
    Except InitError UdpLogger :=
  if env.alreadyRegistered then .error .setLoggerErr else .ok logger

/-- `UdpLoggerBuilder::try_init`: the source calls
`UdpLogger::new(destination).unwrap()`, so an I/O setup error PANICS
(modelled as `.aborted`) instead of being returned; only the
`SetLoggerError` path is returned as `Err`. -/
def UdpLoggerBuilder.try_init (env : Env) (level : Level) :
    List Event × InitResult :=
  match UdpLogger.new env with
  | (evs, .error e) => (evs, .aborted e)
  | (evs, .ok logger) =>
    match UdpLoggerBuilder.init env (logger.set_level level) with
    | .error e => (evs, .err e)
    | .ok installed => (evs, .ok installed)

/-- `UdpLoggerBuilder::try_buffered_init`: the source calls
`UdpLogger::new(destination)?` — the UNBUFFERED constructor — despite its
doc comment; I/O errors are returned with `?` and `SetLoggerError` with
`map_err`. -/
def UdpLoggerBuilder.try_buffered_init (env : Env) (level : Level) :
    List Event × InitResult :=
  match UdpLogger.new env with
  | (evs, .error e) => (evs, .err (.io e))
  | (evs, .ok logger) =>
    match UdpLoggerBuilder.init env (logger.set_level level) with
    | .error e => (evs, .err e)
    | .ok installed => (evs, .ok installed)

/-- The payloads of the `sendTo` events of a trace, in order: the messages
for which a datagram send was attempted. -/
def sentPayloads : List Event → List String
  | [] => []
  | .sendTo m _ :: es => m :: sentPayloads es
  | .bind _ :: es => sentPayloads es
  | .eprintln _ :: es => sentPayloads es

/-- Number of `bind` events in a trace. -/
def countBind (evs : List Event) : Nat :=
  evs.countP fun e => match e with | .bind _ => true | _ => false

/-- Repeated `Writer::push` of a list of messages (producer side). -/
def pushAll (send : SendOracle) (w : LogWriter) (msgs : List String) : LogWriter :=
  msgs.foldl (fun w m => (LogWriter.push send w m).2.1) w

/-- Modelled from the spec (§4.5): the severity ordering the claim states,
"lower rank is more severe (Error < Warn < Info < Debug < Trace)"; an event
is at least as severe as the threshold when its position in that chain is
at or before the threshold's. -/
def severityIndex : Level → Nat
  | .Error => 0
  | .Warn => 1
  | .Info => 2
  | .Debug => 3
  | .Trace => 4

/-- Modelled from the spec: `a` is at least as severe as `b`. -/
def atLeastAsSevere (a b : Level) : Prop :=
  severityIndex a ≤ severityIndex b

/-! Concrete inputs used by counterexamples and witnesses. -/

/-- A concrete resolved destination. -/
def addrA : SocketAddr := ⟨"127.0.0.1", 1999⟩

/-- A concrete environment in which every setup step succeeds. -/
def envOk : Env := ⟨.ok [addrA], true, false, "2026-10-12T00:00:00+00:00"⟩

/-- A concrete environment in which address resolution fails. -/
def envResolveFail : Env := ⟨.error .resolveFail, true, false, "t"⟩

/-- A send oracle under which every send succeeds. -/
def sendOk : SendOracle := fun m _ => .ok m.length

/-- A send oracle failing exactly on the message "m2". -/
def sendFailM2 : SendOracle :=
  fun m _ => if m = "m2" then .error "boom" else .ok 0

/-! Helper lemmas about the drain loop and the queue. -/

/-- The drain loop leaves the queue empty. -/
theorem drainAll_queue_nil (send : SendOracle) (dest : SocketAddr)
    (q : List String) : (drainAll send dest q).2 = [] := by
  induction q with
  | nil => rfl
  | cons m rest ih =>
    cases h : send m dest <;> simp [drainAll, h, ih]

/-- The drain loop attempts a send for every queued message, in queue
order. -/
theorem sentPayloads_drainAll (send : SendOracle) (dest : SocketAddr)
    (q : List String) : sentPayloads (drainAll send dest q).1 = q := by
  induction q with
  | nil => rfl
  | cons m rest ih =>
    cases h : send m dest <;> simp [drainAll, h, sentPayloads, ih]

/-- The drain loop never binds a socket. -/
theorem countBind_drainAll (send : SendOracle) (dest : SocketAddr)
    (q : List String) : countBind (drainAll send dest q).1 = 0 := by
  induction q with
  | nil => rfl
  | cons m rest ih =>
    cases h : send m dest <;>
      simp [drainAll, h, countBind, List.countP_cons, List.countP_append] <;>
      simpa [countBind] using ih

/-- Pushing messages one by one onto a buffered writer appends them in
order to the tail of the queue. -/
theorem pushAll_buffered (send : SendOracle) (q msgs : List String) :
    pushAll send (LogWriter.buffered q) msgs = LogWriter.buffered (q ++ msgs) := by
  induction msgs generalizing q with
  | nil => simp [pushAll]
  | cons m rest ih =>
    show pushAll send (LogWriter.buffered (q ++ [m])) rest = _
    rw [ih]
    simp

/-- A failed send inside the drain loop leaves a stderr diagnostic in the
trace. -/
theorem eprintln_mem_drainAll (send : SendOracle) (dest : SocketAddr)
    (msgs : List String) (m e : String) (hm : m ∈ msgs)
    (he : send m dest = Except.error e) :
    Event.eprintln ("Error sending message: " ++ e) ∈
      (drainAll send dest msgs).1 := by
  induction msgs with
  | nil => cases hm
  | cons a rest ih =>
    rcases List.mem_cons.mp hm with rfl | hm2
    · simp [drainAll, he]
    · have htail := ih hm2
      cases ha : send a dest with
      | ok n =>
        simp only [drainAll, ha, List.nil_append]
        exact List.mem_cons_of_mem _ htail
      | error e2 =>
        simp only [drainAll, ha, List.singleton_append]
        exact List.mem_cons_of_mem _ (List.mem_cons_of_mem _ htail)

/-! Claim theorems. -/

/-- C1: the claim says `UdpLoggerBuilder::try_buffered_init` installs a
logger whose writer is the buffered variant, so that push enqueues and
performs no network send on the calling thread. The source instead calls
`UdpLogger::new` — the unbuffered constructor — so the installed writer is
`unbuffered` and every push emits a datagram send on the calling thread,
contradicting the function's own doc comment. -/
theorem c1_try_buffered_init_installs_unbuffered :
    UdpLoggerBuilder.try_buffered_init envOk Level.Info =
      ([Event.bind "0.0.0.0:0"],
        InitResult.ok ⟨LogWriter.unbuffered addrA, Level.Info⟩) ∧
    (LogWriter.push sendOk (LogWriter.unbuffered addrA) "x").1 =
      [Event.sendTo "x" addrA] := by
  exact ⟨rfl, rfl⟩

/-- C2: the claim says every setup error of both entry points is returned
synchronously as an error result, never by panicking. The source's
`try_init` calls `UdpLogger::new(destination).unwrap()`, so an
address-resolution failure makes it panic (`aborted`) rather than return
`Err`; only `try_buffered_init` returns the error as a result value. -/
theorem c2_try_init_panics_on_setup_error :
    UdpLoggerBuilder.try_init envResolveFail Level.Info =
      ([], InitResult.aborted IoError.resolveFail) ∧
    UdpLoggerBuilder.try_buffered_init envResolveFail Level.Info =
      ([], InitResult.err (InitError.io IoError.resolveFail)) := by
  exact ⟨rfl, rfl⟩

/-- C3: N pushes starting from an empty buffered queue enqueue exactly the
pushed messages in order; one drain cycle attempts to send exactly those
messages in the same FIFO order and leaves the queue empty. -/
theorem c3_fifo_enqueue_then_drain (send : SendOracle) (dest : SocketAddr)
    (msgs : List String) :
    pushAll send (LogWriter.buffered []) msgs = LogWriter.buffered msgs ∧
    sentPayloads (drainAll send dest msgs).1 = msgs ∧
    (drainAll send dest msgs).2 = [] := by
  refine ⟨?_, sentPayloads_drainAll send dest msgs, drainAll_queue_nil send dest msgs⟩
  simpa using pushAll_buffered send [] msgs

/-- C6: for every message, every queue state and every network behaviour,
the buffered writer's push returns `Ok(())`: it only appends to the queue
tail, emits no network event, and never surfaces a send error. -/
theorem c6_buffered_push_never_fails (send : SendOracle) (q : List String)
    (m : String) :
    LogWriter.push send (LogWriter.buffered q) m =
      ([], LogWriter.buffered (q ++ [m]), Except.ok ()) := by
  rfl

/-- C7: in one drain cycle, a send failure on one message does not abort
the batch: every queued message still gets a send attempt (in order), a
diagnostic is written to stderr for each failed send, and no message is
re-queued (the queue ends empty). -/
theorem c7_send_failure_isolation (send : SendOracle) (dest : SocketAddr)
    (msgs : List String) :
    (drainAll send dest msgs).2 = [] ∧
    sentPayloads (drainAll send dest msgs).1 = msgs ∧
    (∀ m e, m ∈ msgs → send m dest = Except.error e →
      Event.eprintln ("Error sending message: " ++ e) ∈
        (drainAll send dest msgs).1) := by
  exact ⟨drainAll_queue_nil send dest msgs,
    sentPayloads_drainAll send dest msgs,
    fun m e hm he => eprintln_mem_drainAll send dest msgs m e hm he⟩

/-- C7 witness: in a batch of three messages where the send of "m2" fails,
the queue ends empty, all three messages are attempted in order, and a
diagnostic for "m2" appears in the trace. -/
theorem c7_send_failure_isolation_witness :
    ("m2" ∈ ["m1", "m2", "m3"] ∧
      sendFailM2 "m2" addrA = Except.error "boom") ∧
    (drainAll sendFailM2 addrA ["m1", "m2", "m3"]).2 = [] ∧
    sentPayloads (drainAll sendFailM2 addrA ["m1", "m2", "m3"]).1 =
      ["m1", "m2", "m3"] ∧
    Event.eprintln ("Error sending message: " ++ "boom") ∈
      (drainAll sendFailM2 addrA ["m1", "m2", "m3"]).1 := by
  have h := c7_send_failure_isolation sendFailM2 addrA ["m1", "m2", "m3"]
  exact ⟨⟨by decide, by rfl⟩, h.1, h.2.1,
    h.2.2 "m2" "boom" (by decide) (by rfl)⟩

/-- C8: a drain cycle on an empty queue emits no event (no send, no
diagnostic) and leaves the queue empty; draining again the queue it leaves
behind has no further effect either (idempotence). -/
theorem c8_drain_empty_idempotent (send : SendOracle) (dest : SocketAddr) :
    drainAll send dest [] = ([], []) ∧
    drainAll send dest (drainAll send dest []).2 = ([], []) := by
  exact ⟨rfl, rfl⟩

/-- countBind distributes over trace concatenation. -/
theorem countBind_append (a b : List Event) :
    countBind (a ++ b) = countBind a + countBind b := by
  simp [countBind, List.countP_append]

/-- Worker wake cycles never bind a socket. -/
theorem countBind_workerCycles (send : SendOracle) (dest : SocketAddr)
    (cycles : List (List String)) :
    countBind (workerCycles send dest cycles) = 0 := by
  induction cycles with
  | nil => rfl
  | cons q qs ih =>
    simp [workerCycles, countBind_append, countBind_drainAll, ih]

/-- C4: `enabled` returns true exactly when the event's level is at least
as severe as the configured threshold, under the spec's severity chain
Error < Warn < Info < Debug < Trace (lower rank = more severe). -/
theorem c4_enabled_iff_at_least_as_severe (l : UdpLogger) (lvl : Level) :
    l.enabled lvl = true ↔ atLeastAsSevere lvl l.level := by
  cases hl : l.level <;> cases lvl <;>
    simp [UdpLogger.enabled, atLeastAsSevere, Level.rank, severityIndex, hl]

/-- C5: when the event is at least as severe as the threshold, `log` hands
`writer.push` exactly the line "LEVEL [timestamp] message" with a trailing
newline, and the logger's writer advances by that push; otherwise `log`
hands the writer nothing and leaves it untouched. -/
theorem c5_log_formats_and_filters (send : SendOracle) (env : Env)
    (l : UdpLogger) (lvl : Level) (message : String) :
    (UdpLogger.log send env l lvl message).1 =
      (if severityIndex lvl ≤ severityIndex l.level then
        [lvl.display ++ " [" ++ env.now ++ "] " ++ message ++ "\n"]
      else []) ∧
    (UdpLogger.log send env l lvl message).2.2.writer =
      (if severityIndex lvl ≤ severityIndex l.level then
        (LogWriter.push send l.writer
          (lvl.display ++ " [" ++ env.now ++ "] " ++ message ++ "\n")).2.1
      else l.writer) := by
  have hiff : (l.enabled lvl = true) ↔
      severityIndex lvl ≤ severityIndex l.level := by
    cases hl : l.level <;> cases lvl <;>
      simp [UdpLogger.enabled, Level.rank, severityIndex, hl]
  by_cases h : l.enabled lvl = true
  · have h2 := hiff.mp h
    simp [UdpLogger.log, h, h2]
  · have h2 : ¬ severityIndex lvl ≤ severityIndex l.level :=
      fun c => h (hiff.mpr c)
    simp [UdpLogger.log, h, h2]

/-- C9 counterexample: three consecutive drain cycles of the buffered
worker emit zero bind events — the claim that a fresh local endpoint is
bound on each drain cycle would require at least three. The single bind
happens in `UdpBufferedWriter::new`, before the worker starts. -/
theorem c9_counterexample_no_bind_per_cycle :
    ¬ (1 ≤ countBind (drainAll sendOk addrA ["a"]).1) ∧
    countBind (workerCycles sendOk addrA [["a"], ["b"], ["c"]]) = 0 ∧
    countBind ((UdpBufferedWriter.new envOk).1 ++
      workerCycles sendOk addrA [["a"], ["b"], ["c"]]) = 1 := by
  exact ⟨by decide, by decide, by decide⟩

/-- C9 amended: whenever buffered construction succeeds, exactly one bind
is performed, at construction (worker startup); drain cycles bind nothing. -/
theorem c9_bind_once_at_startup (env : Env) (send : SendOracle)
    (dest : SocketAddr) (cycles : List (List String))
    (r : SocketAddr × List String)
    (h : (UdpBufferedWriter.new env).2 = Except.ok r) :
    countBind (UdpBufferedWriter.new env).1 = 1 ∧
    countBind (workerCycles send dest cycles) = 0 := by
  refine ⟨?_, countBind_workerCycles send dest cycles⟩
  unfold UdpBufferedWriter.new at h ⊢
  rcases hres : env.resolved with e | addrs <;> simp only [hres] at h ⊢
  · simp at h
  · rcases hh : addrs.head? with _ | d <;> simp only [hh] at h ⊢
    · simp at h
    · by_cases hb : env.bindOk
      · simp [hb, countBind]
      · simp [hb] at h

/-- C9 amended witness: at a concrete successful construction with one
drain cycle, construction binds once and the cycle binds nothing. -/
theorem c9_bind_once_at_startup_witness :
    (UdpBufferedWriter.new envOk).2 = Except.ok (addrA, []) ∧
    (countBind (UdpBufferedWriter.new envOk).1 = 1 ∧
      countBind (workerCycles sendOk addrA [["a"]]) = 0) :=
  ⟨rfl, c9_bind_once_at_startup envOk sendOk addrA [["a"]] (addrA, []) rfl⟩

/-- C10: every logger successfully constructed by `UdpLogger::new` or
`UdpLogger::new_buffered` starts with threshold `Info`: it enables Error,
Warn and Info events and filters out Debug and Trace events. -/
theorem c10_default_level_info (env₁ env₂ : Env) (l₁ l₂ : UdpLogger)
    (h₁ : (UdpLogger.new env₁).2 = Except.ok l₁)
    (h₂ : (UdpLogger.new_buffered env₂).2 = Except.ok l₂) :
    l₁.level = Level.Info ∧ l₂.level = Level.Info ∧
    (l₁.enabled Level.Error = true ∧ l₁.enabled Level.Warn = true ∧
      l₁.enabled Level.Info = true ∧ l₁.enabled Level.Debug = false ∧
      l₁.enabled Level.Trace = false) ∧
    (l₂.enabled Level.Error = true ∧ l₂.enabled Level.Warn = true ∧
      l₂.enabled Level.Info = true ∧ l₂.enabled Level.Debug = false ∧
      l₂.enabled Level.Trace = false) := by
  have hl₁ : l₁.level = Level.Info := by
    unfold UdpLogger.new at h₁
    rcases hw : UdpWriter.new env₁ with ⟨evs, res⟩
    rw [hw] at h₁
    rcases res with e | d
    · simp at h₁
    · simp at h₁
      rw [← h₁]
  have hl₂ : l₂.level = Level.Info := by
    unfold UdpLogger.new_buffered at h₂
    rcases hw : UdpBufferedWriter.new env₂ with ⟨evs, res⟩
    rw [hw] at h₂
    rcases res with e | d
    · simp at h₂
    · simp at h₂
      rw [← h₂]
  refine ⟨hl₁, hl₂, ?_, ?_⟩ <;>
    simp [UdpLogger.enabled, hl₁, hl₂, Level.rank]

/-- C10 witness: at a concrete environment, both constructors succeed and
both resulting loggers have threshold `Info`. -/
theorem c10_default_level_info_witness :
    ((UdpLogger.new envOk).2 =
        Except.ok ⟨LogWriter.unbuffered addrA, Level.Info⟩ ∧
      (UdpLogger.new_buffered envOk).2 =
        Except.ok ⟨LogWriter.buffered [], Level.Info⟩) ∧
    (⟨LogWriter.unbuffered addrA, Level.Info⟩ : UdpLogger).level =
      Level.Info ∧
    (⟨LogWriter.buffered [], Level.Info⟩ : UdpLogger).level = Level.Info := by
  have h := c10_default_level_info envOk envOk
    ⟨LogWriter.unbuffered addrA, Level.Info⟩
    ⟨LogWriter.buffered [], Level.Info⟩ rfl rfl
  exact ⟨⟨rfl, rfl⟩, h.1, h.2.1⟩
